import Mathlib

/-!
Verification of the cuadrada automated peer-review pipeline.

This file embeds the decision-extraction and resilience core of the
repository (src/app.py and src/agents.py) as executable Lean definitions
and proves properties of the embedded code.

Conventions:
* Python strings are modelled as `String` / `List Char`; `str.lower()` and
  `re.IGNORECASE` are modelled by character-wise `Char.toLower` (the texts
  involved are ASCII).
* Python's substring test `pat in s` is modelled by `containsSub`.
* `re.search` for the specific patterns used by the code is modelled by
  dedicated scanning functions that implement exactly the leftmost-match
  semantics of those patterns (see the comments at each definition).
* Python floats are modelled as exact rationals (`ℚ`); `round(x, 2)` is
  modelled as rounding to a multiple of 1/100 with ties to even.
* The network is an oracle: completion-call results are inputs of type
  `Except String String` (error message or review text).
-/

namespace Cuadrada

/-! ### Model list and reviewer construction (src/agents.py, src/app.py) -/

/-- `BaseReviewer.CLAUDE_MODELS` (src/agents.py lines 66-71): available
models ordered by capability, highest to lowest. -/
def CLAUDE_MODELS : List String :=
  [ "claude-3-5-sonnet-20241022"
  , "claude-3-5-sonnet-20240620"
  , "claude-3-haiku-20240307"
  , "claude-3-opus-20240229" ]

/-- The reviewer agent's model cursor state (`model_index`, `current_model`). -/
structure Agent where
  model_index : Nat
  current_model : String
deriving DecidableEq, Repr

/-- `BaseReviewer.__init__` (src/agents.py lines 73-76): stores the index and
sets `current_model = CLAUDE_MODELS[model_index]`. -/
def baseReviewerInit (model_index : Nat) : Agent :=
  { model_index := model_index
  , current_model := CLAUDE_MODELS.getD model_index "" }

/-- `process_reviews` (src/app.py line 710) constructs a fresh
`ClaudeAgent(model_index=1)` for each of the three reviewer slots. -/
def processReviewsAgent (slot : Fin 3) : Agent := baseReviewerInit 1

/-- `retry_review` (src/app.py line 1039) constructs a fresh
`ClaudeAgent(model_index=1)` for the single retried reviewer. -/
def retryReviewAgent : Agent := baseReviewerInit 1

/-! ### Text utilities -/

/-- Character-wise lowercasing, modelling `str.lower()` / `re.IGNORECASE`
on ASCII text. -/
def lowerL (s : List Char) : List Char := s.map Char.toLower

/-- Python's substring containment `pat in s`: some suffix of `s` starts
with `pat`. -/
def containsSub (pat : List Char) : List Char → Bool
  | [] => pat.isEmpty
  | c :: rest => pat.isPrefixOf (c :: rest) || containsSub pat rest

/-- Case-insensitive containment of the string `pat` in the string `s`. -/
def containsCI (s pat : String) : Bool :=
  containsSub (lowerL pat.toList) (lowerL s.toList)

/-- The characters matched by Python's regex class `\s` on ASCII text. -/
def pyWhitespace (c : Char) : Bool :=
  (c == ' ') || (c == '\t') || (c == '\n') || (c == '\r') || (c == '\x0b') || (c == '\x0c')

/-! ### Terminal-marker matching (src/app.py lines 298-307)

The code tests, in order and case-insensitively:
* `re.search(r'FINAL DECISION:\s*\*\*ACCEPTED\*\*', text, re.IGNORECASE)`
* `re.search(r'FINAL DECISION:\s*\*\*ACCEPTED WITH (MINOR|MAJOR) REVISION', text, re.IGNORECASE)`
* `re.search(r'FINAL DECISION:\s*\*\*REJECTED\*\*', text, re.IGNORECASE)`

Each pattern is a literal head `final decision:` followed by `\s*` and a
literal tail starting with `*`.  Since `*` is not a whitespace character,
greedy whitespace skipping is exact: a match exists at a position iff the
lowercased text has the head there, and after dropping all following
whitespace the tail is a prefix of the remainder. -/

/-- The literal head of all three terminal-marker regexes, lowercased. -/
def finalDecisionLit : List Char := "final decision:".toList

/-- Whether one terminal-marker pattern with tail `tail` matches at the start
of the (lowercased) text `cs`. -/
def markerAt (tail cs : List Char) : Bool :=
  finalDecisionLit.isPrefixOf cs &&
    tail.isPrefixOf ((cs.drop finalDecisionLit.length).dropWhile pyWhitespace)

/-- Whether one terminal-marker pattern with tail `tail` matches anywhere in
the (lowercased) text, as `re.search` does. -/
def markerSearch (tail : List Char) : List Char → Bool
  | [] => false
  | c :: rest => markerAt tail (c :: rest) || markerSearch tail rest

/-- Match of `FINAL DECISION:\s*\*\*ACCEPTED\*\*` (case-insensitive). -/
def markerAccepted (low : List Char) : Bool :=
  markerSearch "**accepted**".toList low

/-- Match of `FINAL DECISION:\s*\*\*ACCEPTED WITH (MINOR|MAJOR) REVISION`
(case-insensitive). -/
def markerRevision (low : List Char) : Bool :=
  markerSearch "**accepted with minor revision".toList low ||
    markerSearch "**accepted with major revision".toList low

/-- Match of `FINAL DECISION:\s*\*\*REJECTED\*\*` (case-insensitive). -/
def markerRejected (low : List Char) : Bool :=
  markerSearch "**rejected**".toList low

/-! ### Decision classification (src/app.py lines 293-317) -/

/-- The decision values produced by the pipeline. -/
inductive Decision
  | ACCEPTED
  | REVISION
  | REJECTED
  | ERROR
deriving DecidableEq, Repr, BEq

/-- The decision/accepted classification of `determine_paper_decision`
(src/app.py lines 296-317), operating on the lowercased text: the three
explicit-marker branches, then the keyword fallback chain. -/
def decisionStep (low : List Char) : Decision × Bool :=
  if markerAccepted low then (Decision.ACCEPTED, true)
  else if markerRevision low then (Decision.REVISION, false)
  else if markerRejected low then (Decision.REJECTED, false)
  else if (containsSub "accepted".toList low && !(containsSub "rejected".toList low))
      || containsSub "recommend publication".toList low then
    (Decision.ACCEPTED, true)
  else if containsSub "revision".toList low || containsSub "revise".toList low
      || containsSub "improvements needed".toList low then
    (Decision.REVISION, false)
  else if containsSub "reject".toList low then (Decision.REJECTED, false)
  else (Decision.REVISION, false)

/-! ### Per-criterion score extraction (src/app.py lines 272-291) -/

/-- The six fixed review criteria. -/
inductive Criterion
  | methodology
  | novelty
  | technicalDepth
  | clarity
  | literatureReview
  | impact
deriving DecidableEq, Repr, BEq

/-- The criterion names as they appear in the regex patterns. -/
def criterionName : Criterion → String
  | Criterion.methodology => "Methodology"
  | Criterion.novelty => "Novelty"
  | Criterion.technicalDepth => "Technical Depth"
  | Criterion.clarity => "Clarity"
  | Criterion.literatureReview => "Literature Review"
  | Criterion.impact => "Impact"

/-- The criterion weights (src/app.py lines 276-283 and 320-327). -/
def criterionWeight : Criterion → ℚ
  | Criterion.methodology => 20/100
  | Criterion.novelty => 20/100
  | Criterion.technicalDepth => 15/100
  | Criterion.clarity => 15/100
  | Criterion.literatureReview => 15/100
  | Criterion.impact => 15/100

/-- The criteria in the dictionary's insertion order. -/
def allCriteria : List Criterion :=
  [ Criterion.methodology, Criterion.novelty, Criterion.technicalDepth
  , Criterion.clarity, Criterion.literatureReview, Criterion.impact ]

/-- Numeric value of a digit string (most significant first). -/
def natOfDigits (ds : List Char) : Nat :=
  ds.foldl (fun n c => n * 10 + (c.toNat - '0'.toNat)) 0

/-- Attempt of the regex `{criterion}[^\d]{0,20}(\d{1,3})%` just after an
occurrence of the criterion name: `rest` is the lowercased text following the
name.  The gap `[^\d]{0,20}` can only end at the first digit, and the greedy
`(\d{1,3})%` can only succeed by consuming the whole digit run (at most 3
digits) followed by `%`. -/
def tryMatchAt (rest : List Char) : Option Nat :=
  let gap := rest.takeWhile (fun c => !c.isDigit)
  let rest2 := rest.drop gap.length
  let run := rest2.takeWhile Char.isDigit
  if gap.length ≤ 20 && 1 ≤ run.length && run.length ≤ 3
      && ((rest2.drop run.length).take 1 == ['%']) then
    some (natOfDigits run)
  else none

/-- Leftmost-match search of `{name}[^\d]{0,20}(\d{1,3})%` over the
lowercased text, as `re.search` with `re.IGNORECASE` does: every match must
start at an occurrence of the (lowercased) criterion name. -/
def searchScore (name : List Char) : List Char → Option Nat
  | [] => none
  | c :: rest =>
    if name.isPrefixOf (c :: rest) then
      match tryMatchAt ((c :: rest).drop name.length) with
      | some v => some v
      | none => searchScore name rest
    else searchScore name rest

/-- `parse_criteria_scores` (src/app.py lines 272-291): for each criterion,
the score captured by its regex, or `none` when the regex does not match. -/
def parse_criteria_scores (s : String) : Criterion → Option Nat :=
  fun c => searchScore (lowerL (criterionName c).toList) (lowerL s.toList)

/-! ### Weighted composite and the full parser result (src/app.py 319-356) -/

/-- Rounding of a rational to an integer, ties to even (Python's `round`). -/
def roundTiesEven (q : ℚ) : ℤ :=
  if q - ⌊q⌋ < 1/2 then ⌊q⌋
  else if 1/2 < q - ⌊q⌋ then ⌊q⌋ + 1
  else if ⌊q⌋ % 2 = 0 then ⌊q⌋ else ⌊q⌋ + 1

/-- `round(x, 2)`: rounding to two decimal places. -/
def round2 (q : ℚ) : ℚ := (roundTiesEven (q * 100) : ℚ) / 100

/-- The criteria that were actually found in the text (the keys of the
Python `scores` dict, in insertion order). -/
def foundCriteria (scores : Criterion → Option Nat) : List Criterion :=
  allCriteria.filter (fun c => (scores c).isSome)

/-- `sum(scores.get(crit, 0) * weight for crit, weight in criteria_weights.items())`
(src/app.py line 330): missing criteria contribute `0 * weight`. -/
def weightedScoreAll (scores : Criterion → Option Nat) : ℚ :=
  (allCriteria.map (fun c => ((scores c).getD 0 : ℚ) * criterionWeight c)).sum

/-- `[crit for crit, score in scores.items() if score > 80]`
(src/app.py line 332): the found criteria scoring strictly above 80. -/
def strongCriteria (scores : Criterion → Option Nat) : List Criterion :=
  (foundCriteria scores).filter (fun c => 80 < (scores c).getD 0)

/-- The `final_score` computation of `determine_paper_decision`
(src/app.py lines 328-337): `None` when no criterion was found, otherwise
the weighted sum, boosted by 1.05 (capped at 100) when at least two found
criteria exceed 80, rounded to two decimals. -/
def finalScoreOf (scores : Criterion → Option Nat) : Option ℚ :=
  if (foundCriteria scores).isEmpty then none
  else
    let weighted := weightedScoreAll scores
    let boosted :=
      if 2 ≤ (strongCriteria scores).length then min (weighted * (105/100)) 100
      else weighted
    some (round2 boosted)

/-- The first paragraph of the text: the characters before the first
occurrence of a double line-break (`text.split('\n\n')[0]`). -/
def firstParagraph : List Char → List Char
  | [] => []
  | '\n' :: '\n' :: _ => []
  | c :: rest => c :: firstParagraph rest

/-- `s[:n] + '...' if len(s) > n else s`. -/
def truncateEllipsis (cs : List Char) (n : Nat) : List Char :=
  if n < cs.length then cs.take n ++ "...".toList else cs

/-- The result dictionary of `determine_paper_decision`. -/
structure ReviewVerdict where
  decision : Decision
  summary : String
  full_review : String
  accepted : Bool
  final_score : Option ℚ
  criteria_scores : Criterion → Option Nat

/-- `determine_paper_decision` (src/app.py lines 293-356). -/
def determine_paper_decision (s : String) : ReviewVerdict :=
  let low := lowerL s.toList
  let da := decisionStep low
  let scores := parse_criteria_scores s
  let summary :=
    if containsSub "\n\n".toList s.toList then firstParagraph s.toList else s.toList
  { decision := da.1
  , summary := String.mk (truncateEllipsis summary 300)
  , full_review := String.mk (truncateEllipsis s.toList 1000)
  , accepted := da.2
  , final_score := finalScoreOf scores
  , criteria_scores := scores }

/-! ### Error translation and per-reviewer analysis (src/app.py 250-259, 519-560) -/

/-- The four fixed user-facing messages of `format_error_message`. -/
def msgBusy : String :=
  "Our review system is currently busy. The system attempted to use alternative models but was still rate limited. Please wait 60 seconds and try again."

/-- See `msgBusy`. -/
def msgAuthIssue : String :=
  "There was an issue with our review system authentication. Please contact support."

/-- See `msgBusy`. -/
def msgHighDemand : String :=
  "Our AI review system is experiencing high demand. We tried multiple models but couldn't complete your review. Please try again in a few minutes."

/-- See `msgBusy`. -/
def msgUnexpected : String :=
  "An unexpected error occurred. Please try again or contact support if the issue persists."

/-- `format_error_message` (src/app.py lines 250-259): translates a technical
error string into one of four fixed user-facing messages. -/
def format_error_message (err : String) : String :=
  let low := lowerL err.toList
  if containsSub "rate_limit_error".toList low || containsSub "rate limit".toList low then
    msgBusy
  else if containsSub "authentication_error".toList low
      || containsSub "invalid x-api-key".toList low then
    msgAuthIssue
  else if containsSub "failed to generate review after".toList low then
    msgHighDemand
  else
    msgUnexpected

/-- The result dictionary built by `analyze_paper_with_agent`.  The ERROR
branch of the source omits the `model_downgraded` key; callers read it with
`.get('model_downgraded', False)`, which the `false` default models. -/
structure AgentOutcome where
  decision : Decision
  summary : String
  full_review : String
  accepted : Bool
  model_used : String
  model_downgraded : Bool
deriving DecidableEq, Repr

/-- `analyze_paper_with_agent` (src/app.py lines 519-560).  The outcome of
`agent.analyze_paper` is the oracle input `runResult`: `Except.error e` when
the call raised an exception with message `e`, `Except.ok t` when it returned
review text `t`.  `origModel` is the agent's model before the call and
`finalModel` after it (a difference signals a downgrade). -/
def analyze_paper_with_agent (runResult : Except String String)
    (origModel finalModel reviewerName : String) : AgentOutcome :=
  match runResult with
  | Except.error e =>
    { decision := Decision.ERROR
    , summary := format_error_message e
    , full_review := format_error_message e
    , accepted := false
    , model_used := finalModel
    , model_downgraded := false }
  | Except.ok t =>
    if t = "" then
      let e := "No review text generated by " ++ reviewerName
      { decision := Decision.ERROR
      , summary := format_error_message e
      , full_review := format_error_message e
      , accepted := false
      , model_used := finalModel
      , model_downgraded := false }
    else
      let model_downgraded := origModel ≠ finalModel
      let result := determine_paper_decision t
      let model_info :=
        if model_downgraded then
          " [Note: Review generated using fallback model " ++ finalModel
            ++ " due to rate limiting]"
        else ""
      { decision := result.decision
      , summary := result.summary ++ (if model_downgraded then model_info else "")
      , full_review := t ++ (if model_downgraded then model_info else "")
      , accepted := result.accepted
      , model_used := finalModel
      , model_downgraded := model_downgraded }

/-! ### The three-reviewer batch (src/app.py lines 697-759) -/

/-- The reviewer labels of `process_reviews`. -/
def reviewerNames : List String := ["Reviewer 1", "Reviewer 2", "Reviewer 3"]

/-- The outcome of each of the three reviewer slots: each slot constructs a
fresh `ClaudeAgent(model_index=1)` and analyzes the paper.  The oracle gives
each slot's completion result and the agent's model after the run. -/
def processReviewsOutcomes (oracle : Fin 3 → Except String String × String) :
    Fin 3 → AgentOutcome :=
  fun i =>
    analyze_paper_with_agent (oracle i).1 (processReviewsAgent i).current_model
      (oracle i).2 (reviewerNames.getD i "")

/-- The `all_accepted` accumulation of `process_reviews` (src/app.py lines
707-725): starts `true`, set to `false` whenever a slot's decision is not
ACCEPTED. -/
def processReviewsAllAccepted (oracle : Fin 3 → Except String String × String) : Bool :=
  (List.finRange 3).foldl
    (fun acc i =>
      if (processReviewsOutcomes oracle i).decision ≠ Decision.ACCEPTED then false else acc)
    true

/-! ### Single-reviewer retry (src/app.py lines 1007-1054) -/

/-- A stored review result: the result dictionary after `retry_review`
deletes the `accepted` key (src/app.py lines 1043-1044). -/
structure StoredOutcome where
  decision : Decision
  summary : String
  full_review : String
  model_used : String
  model_downgraded : Bool
deriving DecidableEq, Repr

/-- Removal of the `accepted` key from an analysis result. -/
def dropAcceptedKey (o : AgentOutcome) : StoredOutcome :=
  { decision := o.decision
  , summary := o.summary
  , full_review := o.full_review
  , model_used := o.model_used
  , model_downgraded := o.model_downgraded }

/-- The review-related state visible to `retry_review`: the session's
per-reviewer results dictionary and the stored `all_accepted` flag of the
submission. -/
structure ReviewState where
  sessionResults : List (String × StoredOutcome)
  all_accepted : Bool
deriving DecidableEq, Repr

/-- Python dictionary assignment `d[k] = v`: replace in place when the key
exists, else append. -/
def assocSet (l : List (String × StoredOutcome)) (k : String) (v : StoredOutcome) :
    List (String × StoredOutcome) :=
  match l with
  | [] => [(k, v)]
  | (k', v') :: rest =>
    if k' = k then (k, v) :: rest else (k', v') :: assocSet rest k v

/-- Python dictionary lookup `d.get(k)`. -/
def assocGet (l : List (String × StoredOutcome)) (k : String) : Option StoredOutcome :=
  match l with
  | [] => none
  | (k', v') :: rest => if k' = k then some v' else assocGet rest k

/-- The state update of `retry_review` (src/app.py lines 1038-1049): a fresh
`ClaudeAgent(model_index=1)` analyzes the same document, the `accepted` key
is deleted from the result, and `session['review_results'][reviewer_name]`
is replaced.  Nothing else in `retry_review` is touched: in particular the
stored `all_accepted` flag is carried over unchanged. -/
def retry_review (st : ReviewState) (reviewerName : String)
    (runResult : Except String String) (finalModel : String) : ReviewState :=
  let result :=
    analyze_paper_with_agent runResult retryReviewAgent.current_model finalModel reviewerName
  { st with
    sessionResults := assocSet st.sessionResults reviewerName (dropAcceptedKey result) }

/-- The recomputation the spec asks for: `all_accepted` over a full outcome
set is `true` iff every stored decision is ACCEPTED. -/
def allAcceptedOf (l : List (String × StoredOutcome)) : Bool :=
  l.all (fun p => p.2.decision == Decision.ACCEPTED)

/-! ### `load_review_results` and its callers (src/app.py 62-80, 733-740, 1410-1416) -/

/-- A stored per-submission record (only the fields the claims touch). -/
structure SubmissionRecord where
  all_accepted : Bool
  processing_complete : Bool
deriving DecidableEq, Repr

/-- The module-global `review_results` dictionary. -/
def ReviewResultsDict := List (String × SubmissionRecord)

/-- `load_review_results` (src/app.py lines 62-80).  `disk` is the pickled
dictionary when the pickle file exists and holds a dict, else `none`.  The
function mutates the global `review_results` (first component of the result)
and ends without a `return` statement, so its Python return value (second
component) is always `None`. -/
def load_review_results (disk : Option ReviewResultsDict) (mem : ReviewResultsDict) :
    ReviewResultsDict × Option ReviewResultsDict :=
  match disk with
  | some d => (d, none)
  | none => (mem, none)

/-- The merge step of `process_reviews` (src/app.py lines 733-740):
`loaded_results = load_review_results()`, then
`if loaded_results: review_results = loaded_results`.  Returns the global
dictionary after the step. -/
def processReviewsMergeStep (disk : Option ReviewResultsDict)
    (mem : ReviewResultsDict) : ReviewResultsDict :=
  let r := load_review_results disk mem
  match r.2 with
  | some loaded => loaded
  | none => r.1

/-- The disk-reload branch of `check_review_status` (src/app.py lines
1410-1416): `loaded_results = load_review_results()`, then
`if loaded_results and submission_id in loaded_results: ...`.  Returns the
global dictionary after the step and whether the branch body executed. -/
def checkReviewStatusLoadStep (disk : Option ReviewResultsDict)
    (mem : ReviewResultsDict) (submissionId : String) : ReviewResultsDict × Bool :=
  let r := load_review_results disk mem
  match r.2 with
  | some loaded =>
    if (loaded.lookup submissionId).isSome then (loaded, true) else (r.1, false)
  | none => (r.1, false)

/-! ### The rate-limit retry loop of `generate_review` (src/agents.py 88-148)

The loop under a sustained rate limit: every attempt raises
`anthropic.RateLimitError`, so only the rate-limit branch of the loop body
runs.  The state records the loop variables (`model_index`, `retry_count`,
`backoff_time`) plus the trace of attempted model indices and sleeps; the
terminal state carries the raised error message. -/

/-- `max_retries` (src/agents.py line 90). -/
def max_retries : Nat := 3

/-- The state of `generate_review`'s retry loop under sustained rate
limiting. -/
inductive RLState
  | attempting (model_index retry_count backoff_time : Nat)
      (attempts sleeps : List Nat)
  | failed (attempts sleeps : List Nat) (message : String)
deriving DecidableEq, Repr

/-- Whether the loop has terminated by raising. -/
def RLState.isFailed : RLState → Bool
  | RLState.attempting _ _ _ _ _ => false
  | RLState.failed _ _ _ => true

/-- Loop entry (src/agents.py lines 90-92): `retry_count = 0`,
`backoff_time = 2`, starting from the agent's current model index. -/
def rlInit (start : Nat) : RLState :=
  RLState.attempting start 0 2 [] []

/-- One iteration of the `while retry_count < max_retries` loop under a
rate-limit error (src/agents.py lines 100-126 and 147-148): the attempt with
the current model fails; if a less capable model exists the cursor advances
and `retry_count` resets to 0; otherwise `retry_count` increments, the loop
sleeps `backoff_time` seconds and the backoff doubles.  When the loop guard
fails, the "high demand" exception is raised. -/
def rlStep : RLState → RLState
  | RLState.attempting mi rc bt atts sls =>
    if rc < max_retries then
      if mi < CLAUDE_MODELS.length - 1 then
        RLState.attempting (mi + 1) 0 bt (atts ++ [mi]) sls
      else
        RLState.attempting mi (rc + 1) (bt * 2) (atts ++ [mi]) (sls ++ [bt])
    else
      RLState.failed atts sls msgHighDemand
  | RLState.failed a s m => RLState.failed a s m

/-- The raised error message of a terminal state. -/
def RLState.errorMessage : RLState → Option String
  | RLState.attempting _ _ _ _ _ => none
  | RLState.failed _ _ m => some m

/-! ### Concrete fixtures used by the theorems below -/

/-- An oracle where every completion call raises with message "boom". -/
def c7Oracle : Fin 3 → Except String String × String :=
  fun _ => (Except.error "boom", "m")

/-- A stored outcome with the given decision and fixed filler fields. -/
def storedOutcomeOf (d : Decision) : StoredOutcome :=
  { decision := d, summary := "s", full_review := "r", model_used := "m"
  , model_downgraded := false }

/-- A review state with one REJECTED outcome and `all_accepted = false`. -/
def c9State : ReviewState :=
  { sessionResults :=
      [("Reviewer 1", storedOutcomeOf Decision.REJECTED),
        ("Reviewer 2", storedOutcomeOf Decision.ACCEPTED),
        ("Reviewer 3", storedOutcomeOf Decision.ACCEPTED)]
  , all_accepted := false }

/-! ## Helper lemmas -/

/-- A successful containment test yields a decomposition of the text. -/
lemma containsSub_exists {pat l : List Char} (h : containsSub pat l = true) :
    ∃ pre post, l = pre ++ pat ++ post := by
  induction l with
  | nil =>
    refine ⟨[], [], ?_⟩
    simp only [containsSub, List.isEmpty_iff] at h
    simp [h]
  | cons c rest ih =>
    simp only [containsSub, Bool.or_eq_true] at h
    rcases h with h | h
    · rw [List.isPrefixOf_iff_prefix] at h
      obtain ⟨t, ht⟩ := h
      exact ⟨[], t, by simp [← ht]⟩
    · obtain ⟨pre, post, hd⟩ := ih h
      exact ⟨c :: pre, post, by simp [hd]⟩

/-- A decomposition of the text yields a successful containment test. -/
lemma containsSub_of_decomp (pat pre post : List Char) :
    containsSub pat (pre ++ pat ++ post) = true := by
  induction pre with
  | nil =>
    cases hp : pat ++ post with
    | nil =>
      have hpp := List.append_eq_nil.mp hp
      simp [hpp.1, hpp.2, containsSub]
    | cons c rest =>
      simp only [List.nil_append, hp, containsSub, Bool.or_eq_true]
      left
      rw [List.isPrefixOf_iff_prefix, ← hp]
      exact List.prefix_append pat post
  | cons a pre ih =>
    simp only [List.cons_append, containsSub, Bool.or_eq_true]
    right
    exact ih

/-- A list checks as a prefix of itself followed by anything. -/
lemma isPrefixOf_self_append (l post : List Char) : l.isPrefixOf (l ++ post) = true := by
  rw [List.isPrefixOf_iff_prefix]
  exact List.prefix_append l post

/-- `markerSearch` finds a pattern match located after any prefix. -/
lemma markerSearch_append {tail rest : List Char} (pre : List Char)
    (h : markerAt tail rest = true) : markerSearch tail (pre ++ rest) = true := by
  induction pre with
  | nil =>
    cases rest with
    | nil =>
      have hfd : finalDecisionLit.isPrefixOf ([] : List Char) = false := by decide
      simp [markerAt, hfd] at h
    | cons c r => simp [markerSearch, h]
  | cons a pre ih => simp [markerSearch, ih]

/-- A terminal-marker pattern matches at the start of a text consisting of
the literal head, a single space, `*`, the rest `tx` of the marker, and an
arbitrary continuation, provided the pattern tail `'*' :: t` fits `tx`. -/
lemma markerAt_head {t tx : List Char} (post : List Char)
    (h : t.isPrefixOf (tx ++ post) = true) :
    markerAt ('*' :: t) ((finalDecisionLit ++ (' ' :: '*' :: tx)) ++ post) = true := by
  have h1 : (finalDecisionLit ++ (' ' :: '*' :: tx)) ++ post =
      finalDecisionLit ++ (' ' :: '*' :: (tx ++ post)) := by simp
  rw [markerAt, h1]
  simp only [Bool.and_eq_true]
  constructor
  · exact isPrefixOf_self_append _ _
  · rw [List.drop_left]
    have hws : (' ' :: '*' :: (tx ++ post)).dropWhile pyWhitespace = '*' :: (tx ++ post) := by
      rw [List.dropWhile_cons_of_pos (by decide), List.dropWhile_cons_of_neg (by decide)]
    rw [hws]
    simp only [List.isPrefixOf_iff_prefix, List.cons_prefix_cons]
    exact ⟨trivial, List.isPrefixOf_iff_prefix.mp h⟩

/-- `format_error_message` only ever returns one of the four fixed
user-facing messages. -/
lemma format_error_message_mem (e : String) :
    format_error_message e ∈ [msgBusy, msgAuthIssue, msgHighDemand, msgUnexpected] := by
  rw [format_error_message]
  split
  · simp
  · split
    · simp
    · split <;> simp

/-- A digit character contributes at most 9 to `natOfDigits`. -/
lemma digit_sub_le {c : Char} (hc : c.isDigit = true) : c.toNat - '0'.toNat ≤ 9 := by
  simp only [Char.isDigit, Bool.and_eq_true, decide_eq_true_eq] at hc
  obtain ⟨h1, h2⟩ := hc
  have h2n : c.toNat ≤ 57 := by
    simpa [Char.toNat, UInt32.le_def, BitVec.le_def] using h2
  have h0 : '0'.toNat = 48 := by decide
  omega

/-- The accumulator bound behind `natOfDigits_lt`. -/
lemma foldl_digits_lt (ds : List Char) :
    ∀ n : Nat, (∀ c ∈ ds, c.isDigit = true) →
      ds.foldl (fun n c => n * 10 + (c.toNat - '0'.toNat)) n < (n + 1) * 10 ^ ds.length := by
  induction ds with
  | nil => intro n _; simp
  | cons c cs ih =>
    intro n h
    have hd := digit_sub_le (h c (by simp))
    have hrec := ih (n * 10 + (c.toNat - '0'.toNat)) (fun x hx => h x (by simp [hx]))
    simp only [List.foldl_cons, List.length_cons]
    calc List.foldl _ (n * 10 + (c.toNat - '0'.toNat)) cs
        < (n * 10 + (c.toNat - '0'.toNat) + 1) * 10 ^ cs.length := hrec
      _ ≤ (n + 1) * 10 ^ (cs.length + 1) := by
          rw [pow_succ]
          nlinarith [Nat.pos_pow_of_pos cs.length (show 0 < 10 by norm_num)]

/-- The value of a string of at most three digits is below 1000. -/
lemma natOfDigits_lt {ds : List Char} (hd : ∀ c ∈ ds, c.isDigit = true)
    (hlen : ds.length ≤ 3) : natOfDigits ds < 1000 := by
  have := foldl_digits_lt ds 0 hd
  rw [natOfDigits]
  calc ds.foldl (fun n c => n * 10 + (c.toNat - '0'.toNat)) 0
      < (0 + 1) * 10 ^ ds.length := this
    _ ≤ 1000 := by
        have : (10 : Nat) ^ ds.length ≤ 10 ^ 3 :=
          Nat.pow_le_pow_right (by norm_num) hlen
        omega

/-- A successful single-position regex attempt captures at most 3 digits. -/
lemma tryMatchAt_le {rest : List Char} {v : Nat} (h : tryMatchAt rest = some v) :
    v ≤ 999 := by
  simp only [tryMatchAt] at h
  split at h
  · rename_i hcond
    simp only [Option.some.injEq] at h
    subst h
    simp only [Bool.and_eq_true, decide_eq_true_eq] at hcond
    have hdig : ∀ c ∈ ((rest.drop (rest.takeWhile
        (fun c => !c.isDigit)).length).takeWhile Char.isDigit), c.isDigit = true :=
      fun c hc => List.mem_takeWhile_imp hc
    have hv := natOfDigits_lt hdig hcond.1.2
    omega
  · exact absurd h (by simp)

/-- Every score returned by the leftmost-match search is at most 999. -/
lemma searchScore_le {name : List Char} :
    ∀ {low : List Char} {v : Nat}, searchScore name low = some v → v ≤ 999 := by
  intro low
  induction low with
  | nil => intro v h; simp [searchScore] at h
  | cons c rest ih =>
    intro v h
    rw [searchScore] at h
    split at h
    · split at h
      · rename_i hm
        cases h
        exact tryMatchAt_le hm
      · exact ih h
    · exact ih h

/-- Setting a key makes it retrievable. -/
lemma assocGet_assocSet_self (l : List (String × StoredOutcome)) (k : String)
    (v : StoredOutcome) : assocGet (assocSet l k v) k = some v := by
  induction l with
  | nil => simp [assocSet, assocGet]
  | cons p rest ih =>
    by_cases hk : p.1 = k
    · simp [assocSet, assocGet, hk]
    · simp [assocSet, assocGet, hk, ih]

/-- Setting a key leaves the other keys unchanged. -/
lemma assocGet_assocSet_ne (l : List (String × StoredOutcome)) (k k' : String)
    (v : StoredOutcome) (h : k' ≠ k) :
    assocGet (assocSet l k v) k' = assocGet l k' := by
  have hne : ¬ k = k' := fun hh => h hh.symm
  induction l with
  | nil => simp [assocSet, assocGet, hne]
  | cons p rest ih =>
    by_cases hk : p.1 = k
    · simp only [assocSet, hk, if_pos rfl, assocGet]
      simp [hne]
    · simp only [assocSet, hk, if_neg hk, assocGet]
      by_cases hk' : p.1 = k'
      · simp [hk']
      · simp [hk', ih]

/-- The weighted sum over the found criteria equals the source's sum over
all criteria with missing scores defaulted to 0. -/
lemma sum_found_eq_weightedScoreAll (scores : Criterion → Option Nat) :
    ((foundCriteria scores).map
        (fun c => ((scores c).getD 0 : ℚ) * criterionWeight c)).sum
      = weightedScoreAll scores := by
  rw [weightedScoreAll, foundCriteria]
  induction allCriteria with
  | nil => simp
  | cons c l ih =>
    cases hc : scores c with
    | none =>
      rw [List.filter_cons, List.map_cons]
      simp only [hc, Option.isSome_none, Bool.false_eq_true, if_false, Option.getD_none]
      rw [ih]
      push_cast
      ring_nf
      simp [hc]
    | some v =>
      rw [List.filter_cons, List.map_cons]
      simp only [hc, Option.isSome_some, if_true, List.map_cons, List.sum_cons]
      rw [ih]

/-! ## Claim C1 -/

/-- C1 counterexample: the claim says every reviewer-run's model-tier cursor
is initialized to index 0 of CLAUDE_MODELS (the most capable tier), but the
first batch slot's agent — like every slot's and the retry's — is constructed
with `ClaudeAgent(model_index=1)`, so its cursor starts at index 1 and its
current model is not `CLAUDE_MODELS[0]`. -/
theorem c1_counterexample :
    (processReviewsAgent 0).model_index = 1 ∧
    (processReviewsAgent 0).model_index ≠ 0 ∧
    retryReviewAgent.model_index ≠ 0 ∧
    (processReviewsAgent 0).current_model ≠ CLAUDE_MODELS.getD 0 "" := by
  decide

/-- C1 amended: every reviewer-run the orchestrator starts — each of the
three batch slots of `process_reviews` and the single-reviewer retry of
`retry_review` — constructs a fresh agent whose model-tier cursor is
initialized to index 1 of the ordered CLAUDE_MODELS list
(`claude-3-5-sonnet-20240620`), the second tier, not index 0. -/
theorem c1_amended :
    (∀ slot : Fin 3,
      processReviewsAgent slot = baseReviewerInit 1 ∧
      (processReviewsAgent slot).model_index = 1 ∧
      (processReviewsAgent slot).current_model = "claude-3-5-sonnet-20240620") ∧
    retryReviewAgent.model_index = 1 ∧
    retryReviewAgent.current_model = "claude-3-5-sonnet-20240620" ∧
    CLAUDE_MODELS.getD 1 "" = "claude-3-5-sonnet-20240620" := by
  decide

/-! ## Claims C2 and C4 -/

/-- If the lowercased literal `lit` decomposes as the pattern head, one
space, and a marker body `tx` extending the pattern tail `'*' :: t`, then a
text containing `lit` case-insensitively matches the pattern anywhere. -/
lemma markerSearch_of_contains (s lit : String) (tx t rem : List Char)
    (hlit : lowerL lit.toList = finalDecisionLit ++ (' ' :: '*' :: tx))
    (htx : tx = t ++ rem) (h : containsCI s lit = true) :
    markerSearch ('*' :: t) (lowerL s.toList) = true := by
  rw [containsCI] at h
  obtain ⟨pre, post, hdec⟩ := containsSub_exists h
  rw [hlit] at hdec
  rw [hdec, List.append_assoc]
  refine markerSearch_append pre (markerAt_head post ?_)
  rw [htx, List.append_assoc]
  exact isPrefixOf_self_append t (rem ++ post)

/-- A text containing the literal marker `FINAL DECISION: **ACCEPTED**`
case-insensitively matches the exact-ACCEPTED pattern. -/
lemma markerAccepted_of_lit {s : String}
    (h : containsCI s "FINAL DECISION: **ACCEPTED**" = true) :
    markerAccepted (lowerL s.toList) = true := by
  rw [markerAccepted, show "**accepted**".toList = '*' :: "*accepted**".toList from by decide]
  exact markerSearch_of_contains s _ ("*accepted**".toList) ("*accepted**".toList) []
    (by decide) (by decide) h

/-- A text containing the literal MINOR-revision marker case-insensitively
matches the revision pattern. -/
lemma markerRevision_of_minor_lit {s : String}
    (h : containsCI s "FINAL DECISION: **ACCEPTED WITH MINOR REVISION REQUIRED**" = true) :
    markerRevision (lowerL s.toList) = true := by
  rw [markerRevision, Bool.or_eq_true]
  left
  rw [show "**accepted with minor revision".toList =
    '*' :: "*accepted with minor revision".toList from by decide]
  exact markerSearch_of_contains s _
    ("*accepted with minor revision required**".toList)
    ("*accepted with minor revision".toList) (" required**".toList)
    (by decide) (by decide) h

/-- A text containing the literal MAJOR-revision marker case-insensitively
matches the revision pattern. -/
lemma markerRevision_of_major_lit {s : String}
    (h : containsCI s "FINAL DECISION: **ACCEPTED WITH MAJOR REVISION REQUIRED**" = true) :
    markerRevision (lowerL s.toList) = true := by
  rw [markerRevision, Bool.or_eq_true]
  right
  rw [show "**accepted with major revision".toList =
    '*' :: "*accepted with major revision".toList from by decide]
  exact markerSearch_of_contains s _
    ("*accepted with major revision required**".toList)
    ("*accepted with major revision".toList) (" required**".toList)
    (by decide) (by decide) h

/-- A text containing the literal marker `FINAL DECISION: **REJECTED**`
case-insensitively matches the REJECTED pattern. -/
lemma markerRejected_of_lit {s : String}
    (h : containsCI s "FINAL DECISION: **REJECTED**" = true) :
    markerRejected (lowerL s.toList) = true := by
  rw [markerRejected, show "**rejected**".toList = '*' :: "*rejected**".toList from by decide]
  exact markerSearch_of_contains s _ ("*rejected**".toList) ("*rejected**".toList) []
    (by decide) (by decide) h

/-- The decision/accepted pair of `determine_paper_decision` is the
classification step applied to the lowercased text. -/
lemma determine_decision_pair (s : String) :
    ((determine_paper_decision s).decision, (determine_paper_decision s).accepted) =
      decisionStep (lowerL s.toList) := rfl

/-- The classification when the exact-ACCEPTED pattern matches. -/
lemma decisionStep_of_accepted {low : List Char} (h : markerAccepted low = true) :
    decisionStep low = (Decision.ACCEPTED, true) := by
  rw [decisionStep]
  simp [h]

/-- The classification when only the revision pattern matches. -/
lemma decisionStep_of_revision {low : List Char} (h1 : markerAccepted low = false)
    (h2 : markerRevision low = true) :
    decisionStep low = (Decision.REVISION, false) := by
  rw [decisionStep]
  simp [h1, h2]

/-- The classification when only the REJECTED pattern matches. -/
lemma decisionStep_of_rejected {low : List Char} (h1 : markerAccepted low = false)
    (h2 : markerRevision low = false) (h3 : markerRejected low = true) :
    decisionStep low = (Decision.REJECTED, false) := by
  rw [decisionStep]
  simp [h1, h2, h3]

/-- The classification when no pattern matches: the keyword fallback. -/
lemma decisionStep_fallback {low : List Char} (h1 : markerAccepted low = false)
    (h2 : markerRevision low = false) (h3 : markerRejected low = false) :
    decisionStep low =
      (if (containsSub "accepted".toList low && !containsSub "rejected".toList low)
          || containsSub "recommend publication".toList low then
        (Decision.ACCEPTED, true)
      else if containsSub "revision".toList low || containsSub "revise".toList low
          || containsSub "improvements needed".toList low then
        (Decision.REVISION, false)
      else if containsSub "reject".toList low then (Decision.REJECTED, false)
      else (Decision.REVISION, false)) := by
  rw [decisionStep]
  simp [h1, h2, h3]

/-- C2 counterexample: this text contains exactly one of the four literal
terminal markers — the MINOR-revision marker — so the claim requires the
decision/accepted pair REVISION/false; but the surrounding text contains
`FINAL DECISION:**ACCEPTED**` (no space after the colon, which the `\s*` of
the regex accepts although it is not one of the four literal markers), so
the parser's exact-ACCEPTED pattern fires first and the code returns
ACCEPTED/true. -/
theorem c2_counterexample :
    containsCI
        "FINAL DECISION: **ACCEPTED WITH MINOR REVISION REQUIRED**\nSee the earlier draft line FINAL DECISION:**ACCEPTED**"
        "FINAL DECISION: **ACCEPTED WITH MINOR REVISION REQUIRED**" = true ∧
    containsCI
        "FINAL DECISION: **ACCEPTED WITH MINOR REVISION REQUIRED**\nSee the earlier draft line FINAL DECISION:**ACCEPTED**"
        "FINAL DECISION: **ACCEPTED**" = false ∧
    containsCI
        "FINAL DECISION: **ACCEPTED WITH MINOR REVISION REQUIRED**\nSee the earlier draft line FINAL DECISION:**ACCEPTED**"
        "FINAL DECISION: **ACCEPTED WITH MAJOR REVISION REQUIRED**" = false ∧
    containsCI
        "FINAL DECISION: **ACCEPTED WITH MINOR REVISION REQUIRED**\nSee the earlier draft line FINAL DECISION:**ACCEPTED**"
        "FINAL DECISION: **REJECTED**" = false ∧
    (determine_paper_decision
        "FINAL DECISION: **ACCEPTED WITH MINOR REVISION REQUIRED**\nSee the earlier draft line FINAL DECISION:**ACCEPTED**").decision
      = Decision.ACCEPTED ∧
    (determine_paper_decision
        "FINAL DECISION: **ACCEPTED WITH MINOR REVISION REQUIRED**\nSee the earlier draft line FINAL DECISION:**ACCEPTED**").accepted
      = true := by
  decide

/-- C2 amended: marker presence is judged by the parser's case-insensitive
patterns, `FINAL DECISION:` followed by any amount of whitespace and the
marker phrase (the revision patterns do not require the trailing
`REQUIRED**`); each of the four literal markers matches its pattern, and the
decision/accepted pair follows pattern priority — exact ACCEPTED beats the
revision patterns beats REJECTED, only exact ACCEPTED sets accepted=true. -/
theorem c2_amended (s : String) :
    (containsCI s "FINAL DECISION: **ACCEPTED**" = true →
      markerAccepted (lowerL s.toList) = true) ∧
    (containsCI s "FINAL DECISION: **ACCEPTED WITH MINOR REVISION REQUIRED**" = true →
      markerRevision (lowerL s.toList) = true) ∧
    (containsCI s "FINAL DECISION: **ACCEPTED WITH MAJOR REVISION REQUIRED**" = true →
      markerRevision (lowerL s.toList) = true) ∧
    (containsCI s "FINAL DECISION: **REJECTED**" = true →
      markerRejected (lowerL s.toList) = true) ∧
    (markerAccepted (lowerL s.toList) = true →
      (determine_paper_decision s).decision = Decision.ACCEPTED ∧
        (determine_paper_decision s).accepted = true) ∧
    (markerAccepted (lowerL s.toList) = false →
      markerRevision (lowerL s.toList) = true →
      (determine_paper_decision s).decision = Decision.REVISION ∧
        (determine_paper_decision s).accepted = false) ∧
    (markerAccepted (lowerL s.toList) = false →
      markerRevision (lowerL s.toList) = false →
      markerRejected (lowerL s.toList) = true →
      (determine_paper_decision s).decision = Decision.REJECTED ∧
        (determine_paper_decision s).accepted = false) ∧
    ((markerAccepted (lowerL s.toList) = true ∨
        markerRevision (lowerL s.toList) = true ∨
        markerRejected (lowerL s.toList) = true) →
      ((determine_paper_decision s).accepted = true ↔
        markerAccepted (lowerL s.toList) = true)) := by
  have hpair := determine_decision_pair s
  refine ⟨fun h => markerAccepted_of_lit h,
    fun h => markerRevision_of_minor_lit h,
    fun h => markerRevision_of_major_lit h,
    fun h => markerRejected_of_lit h, ?_, ?_, ?_, ?_⟩
  · intro h
    rw [decisionStep_of_accepted h] at hpair
    exact ⟨congrArg Prod.fst hpair, congrArg Prod.snd hpair⟩
  · intro h1 h2
    rw [decisionStep_of_revision h1 h2] at hpair
    exact ⟨congrArg Prod.fst hpair, congrArg Prod.snd hpair⟩
  · intro h1 h2 h3
    rw [decisionStep_of_rejected h1 h2 h3] at hpair
    exact ⟨congrArg Prod.fst hpair, congrArg Prod.snd hpair⟩
  · intro hm
    cases ha : markerAccepted (lowerL s.toList) with
    | true =>
      rw [decisionStep_of_accepted ha] at hpair
      have hsnd := congrArg Prod.snd hpair
      simp only at hsnd
      simp [hsnd]
    | false =>
      rcases hm with hm | hm | hm
      · rw [ha] at hm
        exact absurd hm (by simp)
      · rw [decisionStep_of_revision ha hm] at hpair
        have hsnd := congrArg Prod.snd hpair
        simp only at hsnd
        simp [hsnd]
      · cases hr : markerRevision (lowerL s.toList) with
        | true =>
          rw [decisionStep_of_revision ha hr] at hpair
          have hsnd := congrArg Prod.snd hpair
          simp only at hsnd
          simp [hsnd]
        | false =>
          rw [decisionStep_of_rejected ha hr hm] at hpair
          have hsnd := congrArg Prod.snd hpair
          simp only at hsnd
          simp [hsnd]

/-- C2 witness: instantiation of `c2_amended` on a text that carries the
literal exact-ACCEPTED marker. -/
theorem c2_witness :
    (determine_paper_decision "Great paper. FINAL DECISION: **ACCEPTED**").decision
        = Decision.ACCEPTED ∧
    (determine_paper_decision "Great paper. FINAL DECISION: **ACCEPTED**").accepted
        = true := by
  have h := c2_amended "Great paper. FINAL DECISION: **ACCEPTED**"
  exact h.2.2.2.2.1 (h.1 (by decide))

/-- C4 counterexample: this text contains no terminal-marker pattern,
contains "recommend publication" and "rejected" (hence "reject"), and none
of the revision keywords, so the claim's fallback chain requires REJECTED;
but the code's accept condition is
`("accepted" and not "rejected") or "recommend publication"`, so
"recommend publication" wins despite "rejected" and the code returns
ACCEPTED/accepted=true. -/
theorem c4_counterexample :
    markerAccepted (lowerL "We recommend publication. Another reviewer rejected it.".toList) = false ∧
    markerRevision (lowerL "We recommend publication. Another reviewer rejected it.".toList) = false ∧
    markerRejected (lowerL "We recommend publication. Another reviewer rejected it.".toList) = false ∧
    containsSub "recommend publication".toList
      (lowerL "We recommend publication. Another reviewer rejected it.".toList) = true ∧
    containsSub "rejected".toList
      (lowerL "We recommend publication. Another reviewer rejected it.".toList) = true ∧
    containsSub "accepted".toList
      (lowerL "We recommend publication. Another reviewer rejected it.".toList) = false ∧
    containsSub "revision".toList
      (lowerL "We recommend publication. Another reviewer rejected it.".toList) = false ∧
    containsSub "revise".toList
      (lowerL "We recommend publication. Another reviewer rejected it.".toList) = false ∧
    containsSub "improvements needed".toList
      (lowerL "We recommend publication. Another reviewer rejected it.".toList) = false ∧
    containsSub "reject".toList
      (lowerL "We recommend publication. Another reviewer rejected it.".toList) = true ∧
    (determine_paper_decision "We recommend publication. Another reviewer rejected it.").decision
      = Decision.ACCEPTED ∧
    (determine_paper_decision "We recommend publication. Another reviewer rejected it.").accepted
      = true := by
  decide

/-- C4 amended: for texts with no terminal-marker pattern match, the
fallback is deterministic with ACCEPTED/accepted=true exactly when the text
contains "accepted" without "rejected" OR contains "recommend publication"
(the latter wins even alongside "rejected"); otherwise the revision keywords
give REVISION, otherwise "reject" gives REJECTED, otherwise REVISION —
absence of all signals is never treated as acceptance. -/
theorem c4_amended (s : String)
    (h1 : markerAccepted (lowerL s.toList) = false)
    (h2 : markerRevision (lowerL s.toList) = false)
    (h3 : markerRejected (lowerL s.toList) = false) :
    ((determine_paper_decision s).decision, (determine_paper_decision s).accepted) =
      (if (containsSub "accepted".toList (lowerL s.toList)
            && !containsSub "rejected".toList (lowerL s.toList))
          || containsSub "recommend publication".toList (lowerL s.toList) then
        (Decision.ACCEPTED, true)
      else if containsSub "revision".toList (lowerL s.toList)
          || containsSub "revise".toList (lowerL s.toList)
          || containsSub "improvements needed".toList (lowerL s.toList) then
        (Decision.REVISION, false)
      else if containsSub "reject".toList (lowerL s.toList) then
        (Decision.REJECTED, false)
      else (Decision.REVISION, false)) := by
  rw [determine_decision_pair s, decisionStep_fallback h1 h2 h3]

/-- C4 witness: instantiation of `c4_amended` on a signal-free text, showing
the conservative REVISION default. -/
theorem c4_witness :
    ((determine_paper_decision "This paper is fine.").decision,
      (determine_paper_decision "This paper is fine.").accepted) =
      (Decision.REVISION, false) := by
  have h := c4_amended "This paper is fine." (by decide) (by decide) (by decide)
  rw [h]
  decide

/-! ## Claim C5 -/

/-- C5 counterexample: the claim says every recorded per-criterion score is
an integer in [0,100], but the pattern captures any 1-3 digit number, so the
text "Methodology: 150%" records the score 150, which exceeds 100. -/
theorem c5_counterexample :
    parse_criteria_scores "Methodology: 150%" Criterion.methodology = some 150 ∧
    ¬ (150 ≤ 100) := by
  decide

/-- C5 amended: every per-criterion score recorded by the score-extraction
step is the integer value of the 1-3 digit group of a case-insensitive match
of the pattern (criterion name, then up to 20 non-digit characters, then a
1-3 digit number, then a percent sign), hence an integer in [0,999] — not
[0,100]; criteria with no match are omitted (`none`), never defaulted. -/
theorem c5_amended (s : String) (c : Criterion) (v : Nat)
    (h : parse_criteria_scores s c = some v) : v ≤ 999 :=
  searchScore_le h

/-- C5 witness: instantiation of `c5_amended` on a concrete review text. -/
theorem c5_witness :
    parse_criteria_scores "Methodology: 150%" Criterion.methodology = some 150 ∧
    150 ≤ 999 :=
  ⟨by decide, c5_amended "Methodology: 150%" Criterion.methodology 150 (by decide)⟩

/-! ## Claim C3 -/

/-- C3: for every review text, the composite score is absent exactly when no
criterion was extracted; otherwise it equals the weighted sum over exactly
the criteria that were found (missing criteria contribute nothing and the
weights are not renormalized), multiplied by 1.05 and capped at 100 when two
or more found criteria scored strictly above 80, rounded to 2 decimals. -/
theorem c3_composite (s : String) :
    (foundCriteria (parse_criteria_scores s) = [] →
      (determine_paper_decision s).final_score = none) ∧
    (foundCriteria (parse_criteria_scores s) ≠ [] →
      (determine_paper_decision s).final_score = some (round2
        (if 2 ≤ ((foundCriteria (parse_criteria_scores s)).filter
              (fun c => 80 < (parse_criteria_scores s c).getD 0)).length then
          min ((((foundCriteria (parse_criteria_scores s)).map
              (fun c => ((parse_criteria_scores s c).getD 0 : ℚ) * criterionWeight c)).sum)
            * (105/100)) 100
        else
          (((foundCriteria (parse_criteria_scores s)).map
              (fun c => ((parse_criteria_scores s c).getD 0 : ℚ) * criterionWeight c)).sum)))) := by
  have hfs : (determine_paper_decision s).final_score
      = finalScoreOf (parse_criteria_scores s) := rfl
  constructor
  · intro h
    rw [hfs]
    simp [finalScoreOf, h]
  · intro h
    rw [hfs]
    simp only [finalScoreOf, strongCriteria, ← sum_found_eq_weightedScoreAll]
    rw [if_neg (by simpa using h)]

/-- C3 witness: instantiation of `c3_composite` on a text scoring
Methodology 85% and Novelty 90%: both weigh 0.20, both exceed 80, so the
composite is (85·0.20 + 90·0.20)·1.05 = 36.75 = 147/4. -/
theorem c3_witness :
    foundCriteria (parse_criteria_scores "Methodology: 85% Novelty: 90%") ≠ [] ∧
    (determine_paper_decision "Methodology: 85% Novelty: 90%").final_score
      = some (147/4) := by
  refine ⟨by decide, ?_⟩
  have h := (c3_composite "Methodology: 85% Novelty: 90%").2 (by decide)
  rw [h]
  have hf : foundCriteria (parse_criteria_scores "Methodology: 85% Novelty: 90%")
      = [Criterion.methodology, Criterion.novelty] := by decide
  have h85 : parse_criteria_scores "Methodology: 85% Novelty: 90%" Criterion.methodology
      = some 85 := by decide
  have h90 : parse_criteria_scores "Methodology: 85% Novelty: 90%" Criterion.novelty
      = some 90 := by decide
  rw [hf]
  simp only [List.filter, List.map_cons, List.map_nil, List.sum_cons, List.sum_nil,
    h85, h90, Option.getD_some, criterionWeight]
  norm_num
  rw [round2, roundTiesEven]
  rw [show ((147 : ℚ)/4) * 100 = ((3675 : ℤ) : ℚ) from by norm_num]
  rw [Int.floor_intCast]
  norm_num

/-! ## Claim C6 -/

/-- C6: starting the retry loop at tier `start` under a sustained rate-limit
error, the loop attempts every tier from `start` down to the last
(index 3 = CLAUDE_MODELS.length - 1) in order, with the retry counter reset
to 0 on each downgrade (each intermediate tier is attempted exactly once and
the downgrade is not counted against the 3-attempt budget), then makes 3
attempts at the lowest tier sleeping 2, 4, 8 time units (exponential backoff
starting at 2, doubling only once the lowest tier is reached), and fails —
with the high-demand error — only then; no earlier iteration fails. -/
theorem c6_rate_limit_trace (start : Nat) (h : start < CLAUDE_MODELS.length) :
    (rlStep^[7 - start] (rlInit start) =
      RLState.failed (List.range' start (3 - start) ++ [3, 3, 3]) [2, 4, 8]
        msgHighDemand) ∧
    (∀ k, k < 7 - start → (rlStep^[k] (rlInit start)).isFailed = false) ∧
    (∀ k, k < 3 - start →
      rlStep^[k + 1] (rlInit start) =
        RLState.attempting (start + k + 1) 0 2 (List.range' start (k + 1)) []) := by
  have h4 : CLAUDE_MODELS.length = 4 := by decide
  rw [h4] at h
  interval_cases start
  · exact ⟨by decide, by decide, by decide⟩
  · exact ⟨by decide, by decide, by decide⟩
  · exact ⟨by decide, by decide, by decide⟩
  · exact ⟨by decide, by decide, by decide⟩

/-- C6 witness: instantiation of `c6_rate_limit_trace` at the top tier. -/
theorem c6_witness :
    rlStep^[7] (rlInit 0) =
      RLState.failed [0, 1, 2, 3, 3, 3] [2, 4, 8] msgHighDemand := by
  have h := (c6_rate_limit_trace 0 (by decide)).1
  simpa using h

/-! ## Claim C7 -/

/-- The `all_accepted` fold of `process_reviews` is true exactly when every
slot's decision is ACCEPTED. -/
lemma processReviewsAllAccepted_iff (oracle : Fin 3 → Except String String × String) :
    processReviewsAllAccepted oracle = true ↔
      ∀ i, (processReviewsOutcomes oracle i).decision = Decision.ACCEPTED := by
  have hall : (∀ i : Fin 3, (processReviewsOutcomes oracle i).decision = Decision.ACCEPTED) ↔
      ((processReviewsOutcomes oracle 0).decision = Decision.ACCEPTED ∧
        (processReviewsOutcomes oracle 1).decision = Decision.ACCEPTED ∧
        (processReviewsOutcomes oracle 2).decision = Decision.ACCEPTED) := by
    constructor
    · exact fun h => ⟨h 0, h 1, h 2⟩
    · rintro ⟨h0, h1, h2⟩ i
      fin_cases i
      · exact h0
      · exact h1
      · exact h2
  rw [hall, processReviewsAllAccepted]
  rw [show (List.finRange 3) = [0, 1, 2] from by decide]
  simp only [List.foldl_cons, List.foldl_nil]
  by_cases h0 : (processReviewsOutcomes oracle 0).decision = Decision.ACCEPTED <;>
    by_cases h1 : (processReviewsOutcomes oracle 1).decision = Decision.ACCEPTED <;>
    by_cases h2 : (processReviewsOutcomes oracle 2).decision = Decision.ACCEPTED <;>
    simp [h0, h1, h2]

/-- C7: for every way the three completion calls can turn out, the batch
records an outcome for every reviewer slot; a slot whose completion call
fails yields decision ERROR with one of the four fixed user-facing messages
(never the raw error string) and never aborts the batch; and `all_accepted`
is true iff every one of the three recorded decisions is ACCEPTED. -/
theorem c7_batch (oracle : Fin 3 → Except String String × String) :
    (∀ i e, (oracle i).1 = Except.error e →
      (processReviewsOutcomes oracle i).decision = Decision.ERROR ∧
      (processReviewsOutcomes oracle i).summary ∈
        [msgBusy, msgAuthIssue, msgHighDemand, msgUnexpected]) ∧
    (processReviewsAllAccepted oracle = true ↔
      ∀ i, (processReviewsOutcomes oracle i).decision = Decision.ACCEPTED) := by
  refine ⟨?_, processReviewsAllAccepted_iff oracle⟩
  intro i e h
  have hred : processReviewsOutcomes oracle i =
      analyze_paper_with_agent (Except.error e) (processReviewsAgent i).current_model
        (oracle i).2 (reviewerNames.getD i "") := by
    rw [processReviewsOutcomes, h]
  rw [hred, analyze_paper_with_agent]
  exact ⟨rfl, format_error_message_mem e⟩

/-- C7 witness: instantiation of `c7_batch` on a batch whose first slot's
completion call raises. -/
theorem c7_witness :
    (processReviewsOutcomes c7Oracle 0).decision = Decision.ERROR ∧
    (processReviewsOutcomes c7Oracle 0).summary ∈
      [msgBusy, msgAuthIssue, msgHighDemand, msgUnexpected] :=
  (c7_batch c7Oracle).1 0 "boom" rfl

/-! ## Claim C8 -/

/-- C8 counterexample: the claim says the terminal "service exhausted" error
names all the model tiers that were attempted, but the message raised after
exhausting the retry budget is the fixed high-demand string, and none of the
CLAUDE_MODELS identifiers occurs in it. -/
theorem c8_counterexample :
    (rlStep^[7] (rlInit 0)).errorMessage = some msgHighDemand ∧
    CLAUDE_MODELS.all (fun m => !containsSub m.toList msgHighDemand.toList) = true := by
  decide

/-- C8 amended: when the retry counter at the lowest tier reaches the fixed
ceiling of 3 attempts under rate limiting, the completion call fails with the
fixed high-demand message ("We tried multiple models but couldn't complete
your review"), which does not name any of the attempted model tiers. -/
theorem c8_amended (start : Nat) (h : start < CLAUDE_MODELS.length) :
    (rlStep^[7 - start] (rlInit start)).errorMessage = some msgHighDemand ∧
    (∀ m ∈ CLAUDE_MODELS, containsSub m.toList msgHighDemand.toList = false) := by
  have h4 : CLAUDE_MODELS.length = 4 := by decide
  rw [h4] at h
  interval_cases start
  · exact ⟨by decide, by decide⟩
  · exact ⟨by decide, by decide⟩
  · exact ⟨by decide, by decide⟩
  · exact ⟨by decide, by decide⟩

/-- C8 witness: instantiation of `c8_amended` one tier below the top. -/
theorem c8_witness :
    (rlStep^[6] (rlInit 1)).errorMessage = some msgHighDemand := by
  have h := (c8_amended 1 (by decide)).1
  simpa using h

/-! ## Claim C9 -/

/-- C9 counterexample: retrying the one rejected reviewer with a run that
now returns an ACCEPTED review replaces that outcome, after which every
outcome in the updated set is ACCEPTED — so the claim requires the stored
`all_accepted` flag to become true — yet the code leaves it false: nothing
in `retry_review` recomputes it. -/
theorem c9_counterexample :
    allAcceptedOf (retry_review c9State "Reviewer 1"
        (Except.ok "FINAL DECISION: **ACCEPTED**")
        "claude-3-5-sonnet-20240620").sessionResults = true ∧
    (retry_review c9State "Reviewer 1"
        (Except.ok "FINAL DECISION: **ACCEPTED**")
        "claude-3-5-sonnet-20240620").all_accepted = false := by
  decide

/-- C9 amended: the single-reviewer retry replaces exactly the retried
reviewer's stored outcome with the freshly computed one (with the `accepted`
key removed) and leaves every other outcome untouched, but the stored
`all_accepted` flag is not recomputed: it is carried over unchanged. -/
theorem c9_amended (st : ReviewState) (name : String)
    (runResult : Except String String) (finalModel : String) :
    (retry_review st name runResult finalModel).all_accepted = st.all_accepted ∧
    assocGet (retry_review st name runResult finalModel).sessionResults name =
      some (dropAcceptedKey (analyze_paper_with_agent runResult
        retryReviewAgent.current_model finalModel name)) ∧
    (∀ k, k ≠ name →
      assocGet (retry_review st name runResult finalModel).sessionResults k =
        assocGet st.sessionResults k) := by
  refine ⟨rfl, ?_, ?_⟩
  · exact assocGet_assocSet_self _ _ _
  · intro k hk
    exact assocGet_assocSet_ne _ _ _ _ hk

/-- C9 witness: instantiation of `c9_amended` on the concrete state. -/
theorem c9_witness :
    (retry_review c9State "Reviewer 1" (Except.error "boom") "m").all_accepted
        = c9State.all_accepted ∧
    assocGet (retry_review c9State "Reviewer 1" (Except.error "boom") "m").sessionResults
        "Reviewer 2" = assocGet c9State.sessionResults "Reviewer 2" := by
  have h := c9_amended c9State "Reviewer 1" (Except.error "boom") "m"
  exact ⟨h.1, h.2.2 "Reviewer 2" (by decide)⟩

/-! ## Claim C10 -/

/-- C10: `load_review_results` returns `None` for every input state (it only
mutates the module-global dictionary and has no return statement), so the
branches in `process_reviews` and `check_review_status` that test its return
value never execute: the merge step of `process_reviews` leaves the global
dictionary exactly as the call's side effect left it, and the disk-reload
branch of `check_review_status` never fires. -/
theorem c10_load_returns_none (disk : Option ReviewResultsDict)
    (mem : ReviewResultsDict) (sid : String) :
    (load_review_results disk mem).2 = none ∧
    processReviewsMergeStep disk mem = (load_review_results disk mem).1 ∧
    checkReviewStatusLoadStep disk mem sid = ((load_review_results disk mem).1, false) := by
  cases disk <;>
    simp [load_review_results, processReviewsMergeStep, checkReviewStatusLoadStep]

end Cuadrada
